import Mathlib

/-!
Shallow embedding of the apple-gmux GPU multiplexer driver
(src/apple_gmux.c, the later of the two captured revisions; the earlier
revision src/unnamed/part_000 differs in the power-sequencing and
interrupt-dispatch details and is superseded by the named file).

Each driver operation is modelled as a pure function returning the list of
observable events it performs (register writes, register reads, firmware
method invocations, completion-object operations, bounded waits, log lines)
together with its C integer return value.  Values a register read produces
are passed in as explicit parameters; machine integers are `Nat` with
explicit truncation (`% 2 ^ 8`) where the C narrows to `u8`.
-/

/-- gmux port offset: version major byte. -/
def GMUX_PORT_VERSION_MAJOR : Nat := 0x04

/-- gmux port offset: version minor byte. -/
def GMUX_PORT_VERSION_MINOR : Nat := 0x05

/-- gmux port offset: version release byte. -/
def GMUX_PORT_VERSION_RELEASE : Nat := 0x06

/-- gmux port offset: display switch register. -/
def GMUX_PORT_SWITCH_DISPLAY : Nat := 0x10

/-- gmux port offset: interrupt enable register. -/
def GMUX_PORT_INTERRUPT_ENABLE : Nat := 0x14

/-- gmux port offset: interrupt status register. -/
def GMUX_PORT_INTERRUPT_STATUS : Nat := 0x16

/-- gmux port offset: DDC switch register. -/
def GMUX_PORT_SWITCH_DDC : Nat := 0x28

/-- gmux port offset: external switch register. -/
def GMUX_PORT_SWITCH_EXTERNAL : Nat := 0x40

/-- gmux port offset: discrete GPU power register. -/
def GMUX_PORT_DISCRETE_POWER : Nat := 0x50

/-- gmux port offset: maximum brightness (32-bit). -/
def GMUX_PORT_MAX_BRIGHTNESS : Nat := 0x70

/-- gmux port offset: brightness (four sequential byte writes). -/
def GMUX_PORT_BRIGHTNESS : Nat := 0x74

/-- Value written to the interrupt-enable register to enable interrupts. -/
def GMUX_INTERRUPT_ENABLE : Nat := 0xff

/-- Value written to the interrupt-enable register to disable interrupts. -/
def GMUX_INTERRUPT_DISABLE : Nat := 0x00

/-- Interrupt-status bit reporting a power change (1 <<< 2). -/
def GMUX_INTERRUPT_STATUS_POWER : Nat := 4

/-- Mask of the 24 valid brightness bits. -/
def GMUX_BRIGHTNESS_MASK : Nat := 0x00ffffff

/-- vga_switcheroo client id of the integrated GPU (first enumerator, 0). -/
def VGA_SWITCHEROO_IGD : Nat := 0

/-- vga_switcheroo client id of the discrete GPU (second enumerator, 1). -/
def VGA_SWITCHEROO_DIS : Nat := 1

/-- vga_switcheroo power state Off (first enumerator, 0). -/
def VGA_SWITCHEROO_OFF : Nat := 0

/-- vga_switcheroo power state On (second enumerator, 1). -/
def VGA_SWITCHEROO_ON : Nat := 1

/-- errno code ENODEV; the driver reports failures as the negative value. -/
def ENODEV : Int := 19

/-- Observable actions of the driver: byte port writes (port, byte value),
byte port reads (port, value the hardware returned), entry into the PWRD
firmware routine (integer argument), the actual ACPI evaluation of the PWRD
method (integer argument), re-arming of the completion object
(init_completion), the bounded wait on it (timeout in ms), its fulfilment
(complete), and kernel log lines. -/
inductive Event where
  | write8 : Nat → Nat → Event
  | read8 : Nat → Nat → Event
  | pwrdCall : Nat → Event
  | acpiEval : Nat → Event
  | rearm : Event
  | wait : Nat → Event
  | fulfill : Event
  | log : String → Event
deriving DecidableEq

/-- gmux_write8: the C helper takes a `u8` value, so the argument is
narrowed to a byte at the call boundary, and the write is emitted. -/
def gmux_write8 (port val : Nat) : Event :=
  Event.write8 port (val % 2 ^ 8)

/-- Byte-addressed register file of the hardware mock: one byte per offset. -/
def Regs : Type := Nat → Nat

/-- Semantics of one byte write on the register file. -/
def writeReg (r : Regs) (port val : Nat) : Regs :=
  fun p => if p = port then val else r p

/-- Replays the write8 events of a trace onto a register file, in order
(a hardware mock in which reads reflect prior writes). -/
def applyEvents (tr : List Event) (r : Regs) : Regs :=
  tr.foldl (fun s e =>
    match e with
    | Event.write8 p v => writeReg s p v
    | _ => s) r

/-- gmux_read32: little-endian 32-bit read of four consecutive byte
registers, as the `inl` of the port window returns it. -/
def gmux_read32 (r : Regs) (port : Nat) : Nat :=
  r port + 2 ^ 8 * r (port + 1) + 2 ^ 16 * r (port + 2) + 2 ^ 24 * r (port + 3)

/-- gmux_get_brightness: 32-bit read at the brightness port, masked to the
low 24 bits. -/
def gmux_get_brightness (r : Regs) : Nat :=
  gmux_read32 r GMUX_PORT_BRIGHTNESS &&& GMUX_BRIGHTNESS_MASK

/-- gmux_update_status: writes the three low bytes of the requested
brightness to consecutive offsets, then 0 to the fourth, and returns 0.
The C reads `bd->props.brightness` (a `u32`); it is the `brightness`
parameter here. -/
def gmux_update_status (brightness : Nat) : List Event × Int :=
  ([gmux_write8 GMUX_PORT_BRIGHTNESS brightness,
    gmux_write8 (GMUX_PORT_BRIGHTNESS + 1) (brightness / 2 ^ 8),
    gmux_write8 (GMUX_PORT_BRIGHTNESS + 2) (brightness / 2 ^ 16),
    gmux_write8 (GMUX_PORT_BRIGHTNESS + 3) 0], 0)

/-- gmux_switchto: the integrated client gets DDC=1, display=2, external=2;
every other client id gets DDC=2, display=3, external=3; returns 0.  The C
enum is an integer, so the id is a `Nat`. -/
def gmux_switchto (id : Nat) : List Event × Int :=
  if id = VGA_SWITCHEROO_IGD then
    ([gmux_write8 GMUX_PORT_SWITCH_DDC 1,
      gmux_write8 GMUX_PORT_SWITCH_DISPLAY 2,
      gmux_write8 GMUX_PORT_SWITCH_EXTERNAL 2], 0)
  else
    ([gmux_write8 GMUX_PORT_SWITCH_DDC 2,
      gmux_write8 GMUX_PORT_SWITCH_DISPLAY 3,
      gmux_write8 GMUX_PORT_SWITCH_EXTERNAL 3], 0)

/-- gmux_switchddc: writes only the DDC switch register (1 for the
integrated client, 2 otherwise), logging which way it switched; returns 0. -/
def gmux_switchddc (id : Nat) : List Event × Int :=
  if id = VGA_SWITCHEROO_IGD then
    ([Event.log "switch ddc to IGD", gmux_write8 GMUX_PORT_SWITCH_DDC 1], 0)
  else
    ([Event.log "switch ddc to DIS", gmux_write8 GMUX_PORT_SWITCH_DDC 2], 0)

/-- Outcome of the platform firmware environment for a PWRD invocation:
whether acpi_get_handle finds the method, and whether acpi_evaluate_object
succeeds on it. -/
structure FwEnv where
  handleOk : Bool
  evalOk : Bool
deriving DecidableEq

/-- gmux_call_acpi_pwrd: looks up the fixed-path PWRD method and evaluates
it with one integer argument.  Entry into the routine is recorded as
`pwrdCall`; the ACPI evaluation itself happens only when the handle lookup
succeeded.  A failed lookup or evaluation is logged and reported as
-ENODEV; success is logged and reported as 0.  The return buffer is
discarded. -/
def gmux_call_acpi_pwrd (fw : FwEnv) (arg : Nat) : List Event × Int :=
  if fw.handleOk = false then
    ([Event.pwrdCall arg, Event.log "Cannot get PWRD handle"], -ENODEV)
  else if fw.evalOk = false then
    ([Event.pwrdCall arg, Event.acpiEval arg, Event.log "PWRD call failed"],
      -ENODEV)
  else
    ([Event.pwrdCall arg, Event.acpiEval arg, Event.log "PWRD call successful"],
      0)

/-- wait_for_completion_interruptible_timeout: returns the (positive)
remaining time when the completion was fulfilled before the 200 ms timeout
and 0 when the wait timed out.  (Interruption by a signal is not modelled.)
The `completed` parameter says whether the interrupt bridge fulfilled the
completion within the bound. -/
def wait_for_completion_interruptible_timeout (completed : Bool) : Int :=
  if completed then 1 else 0

/-- gmux_set_discrete_state: re-arms the completion object
(init_completion), then for On calls the PWRD firmware routine with
argument 0 and writes discrete-power=1 then 3, and for Off writes
discrete-power=1 then 0 and calls the PWRD routine with argument 1; the
PWRD result is ignored in both branches.  It then waits on the completion
with a 200 ms bound and — as the C literally does — logs
"completion timeout" when the wait returned a nonzero value, i.e. when the
completion WAS fulfilled before the timeout; it always returns 0. -/
def gmux_set_discrete_state (fw : FwEnv) (completed : Bool) (state : Nat) :
    List Event × Int :=
  let body : List Event :=
    if state = VGA_SWITCHEROO_ON then
      (gmux_call_acpi_pwrd fw 0).1 ++
        [gmux_write8 GMUX_PORT_DISCRETE_POWER 1,
         gmux_write8 GMUX_PORT_DISCRETE_POWER 3,
         Event.log "discrete card powered up"]
    else
      [gmux_write8 GMUX_PORT_DISCRETE_POWER 1,
       gmux_write8 GMUX_PORT_DISCRETE_POWER 0] ++
        (gmux_call_acpi_pwrd fw 1).1 ++
        [Event.log "discrete card powered down"]
  let timeoutLog : List Event :=
    if wait_for_completion_interruptible_timeout completed ≠ 0 then
      [Event.log "completion timeout"]
    else []
  (Event.rearm :: body ++ Event.wait 200 :: timeoutLog, 0)

/-- gmux_set_power_state: the integrated client returns 0 immediately with
no observable action; any other client id runs the discrete power
sequencer. -/
def gmux_set_power_state (fw : FwEnv) (completed : Bool) (id state : Nat) :
    List Event × Int :=
  if id = VGA_SWITCHEROO_IGD then ([], 0)
  else gmux_set_discrete_state fw completed state

/-- PCI vendor id of the integrated-graphics vendor. -/
def PCI_VENDOR_ID_INTEL : Nat := 0x8086

/-- PCI vendor id of the discrete-graphics vendor. -/
def PCI_VENDOR_ID_NVIDIA : Nat := 0x10de

/-- gmux_get_client_id: the integrated vendor is always integrated; the
9400M (vendor 0x10de, device 0x0863) is hardcoded as integrated; every
other controller is discrete. -/
def gmux_get_client_id (vendor device : Nat) : Nat :=
  if vendor = PCI_VENDOR_ID_INTEL then VGA_SWITCHEROO_IGD
  else if vendor = PCI_VENDOR_ID_NVIDIA ∧ device = 0x0863 then
    VGA_SWITCHEROO_IGD
  else VGA_SWITCHEROO_DIS

/-- gmux_suspend: records the resume client id from the display switch
register — the integrated client when the register reads 2, the discrete
client for every other value.  The parameter is the byte the register read
returned. -/
def gmux_suspend (displayReg : Nat) : Nat :=
  if displayReg = 2 then VGA_SWITCHEROO_IGD else VGA_SWITCHEROO_DIS

/-- gmux_resume: replays gmux_switchto on the recorded resume client id
and returns 0. -/
def gmux_resume (resume_client_id : Nat) : List Event × Int :=
  ((gmux_switchto resume_client_id).1, 0)

/-- gmux_probe, presence check portion: after reading the three version
bytes, the device is declared absent (-ENODEV) exactly when all three read
0xff; otherwise the triple is recorded as the device version. -/
def gmux_probe_version_check (ver_major ver_minor ver_release : Nat) :
    Except Int (Nat × Nat × Nat) :=
  if ver_major = 0xff ∧ ver_minor = 0xff ∧ ver_release = 0xff then
    Except.error (-ENODEV)
  else
    Except.ok (ver_major, ver_minor, ver_release)

/-- gmux_disable_interrupts: writes the disable mask to the
interrupt-enable register. -/
def gmux_disable_interrupts : Event :=
  gmux_write8 GMUX_PORT_INTERRUPT_ENABLE GMUX_INTERRUPT_DISABLE

/-- gmux_enable_interrupts: writes the enable mask to the interrupt-enable
register. -/
def gmux_enable_interrupts : Event :=
  gmux_write8 GMUX_PORT_INTERRUPT_ENABLE GMUX_INTERRUPT_ENABLE

/-- gmux_interrupt_activate_status: re-reads the status register
(`old_status`), writes that value back to acknowledge, re-reads
(`new_status`), and logs a non-fatal diagnostic when the re-read is
non-zero.  The two parameters are the values the two reads returned. -/
def gmux_interrupt_activate_status (old_status new_status : Nat) : List Event :=
  [Event.read8 GMUX_PORT_INTERRUPT_STATUS old_status,
   gmux_write8 GMUX_PORT_INTERRUPT_STATUS old_status,
   Event.read8 GMUX_PORT_INTERRUPT_STATUS new_status] ++
    (if new_status ≠ 0 then [Event.log "activate status error"] else [])

/-- gmux_notify_handler: reads the interrupt status (`status`), disables
interrupts, logs, acknowledges via gmux_interrupt_activate_status (whose
two reads returned `s1` and `s2`), re-enables interrupts, and fulfills the
completion exactly when the originally read status has the power-change
bit set. -/
def gmux_notify_handler (status s1 s2 : Nat) : List Event :=
  [Event.read8 GMUX_PORT_INTERRUPT_STATUS status,
   gmux_disable_interrupts,
   Event.log "gpe handler called"] ++
    gmux_interrupt_activate_status s1 s2 ++
    [gmux_enable_interrupts] ++
    (if status &&& GMUX_INTERRUPT_STATUS_POWER ≠ 0 then [Event.fulfill]
     else [])

/-- Projection of a trace onto the events the discrete power-sequencing
claim is about: writes to the discrete-power register and entries into the
PWRD firmware routine, in trace order. -/
def pwrd_power_events (tr : List Event) : List Event :=
  tr.filter fun e =>
    match e with
    | Event.write8 p _ => p == GMUX_PORT_DISCRETE_POWER
    | Event.pwrdCall _ => true
    | _ => false

theorem gmux_set_discrete_state_ret (fw : FwEnv) (completed : Bool)
    (state : Nat) : (gmux_set_discrete_state fw completed state).2 = 0 :=
  rfl

/-- C6: switchTo on the integrated client performs exactly the three writes
DDC=1, display=2, external=2 in that order and returns success, and on the
discrete client exactly DDC=2, display=3, external=3 in that order and
returns success; no other event occurs in either trace. -/
theorem c6_switchto_write_sequences :
    gmux_switchto VGA_SWITCHEROO_IGD =
      ([Event.write8 GMUX_PORT_SWITCH_DDC 1,
        Event.write8 GMUX_PORT_SWITCH_DISPLAY 2,
        Event.write8 GMUX_PORT_SWITCH_EXTERNAL 2], 0) ∧
    gmux_switchto VGA_SWITCHEROO_DIS =
      ([Event.write8 GMUX_PORT_SWITCH_DDC 2,
        Event.write8 GMUX_PORT_SWITCH_DISPLAY 3,
        Event.write8 GMUX_PORT_SWITCH_EXTERNAL 3], 0) := by
  decide

/-- C5: the probe presence check fails with -ENODEV exactly when all three
version bytes read 0xff, and on every other triple it does not fail and
records exactly that triple as the device version. -/
theorem c5_version_presence_check (a b c : Nat) :
    (gmux_probe_version_check a b c = Except.error (-ENODEV) ↔
      a = 0xff ∧ b = 0xff ∧ c = 0xff) ∧
    (gmux_probe_version_check a b c = Except.error (-ENODEV) ∨
      gmux_probe_version_check a b c = Except.ok (a, b, c)) := by
  unfold gmux_probe_version_check
  by_cases h : a = 0xff ∧ b = 0xff ∧ c = 0xff <;> simp [h]

/-- C8: setPower on the integrated client returns success with an empty
event trace, for every power target, firmware environment and completion
outcome: no register write at all, no re-arm of the completion object and
no wait occur. -/
theorem c8_set_power_state_integrated_no_effect (fw : FwEnv)
    (completed : Bool) (state : Nat) :
    gmux_set_power_state fw completed VGA_SWITCHEROO_IGD state = ([], 0) := by
  simp [gmux_set_power_state, VGA_SWITCHEROO_IGD]

/-- C9: the classifier is a pure total function mapping the integrated
vendor (any device) to the integrated client, the hardcoded discrete-vendor
exception pair (0x10de, 0x0863) to the integrated client, and every other
vendor/device pair to the discrete client. -/
theorem c9_get_client_id_classification (vendor device : Nat) :
    gmux_get_client_id vendor device =
      (if vendor = PCI_VENDOR_ID_INTEL ∨
          (vendor = PCI_VENDOR_ID_NVIDIA ∧ device = 0x0863) then
        VGA_SWITCHEROO_IGD
      else VGA_SWITCHEROO_DIS) := by
  unfold gmux_get_client_id
  by_cases h1 : vendor = PCI_VENDOR_ID_INTEL <;>
    by_cases h2 : vendor = PCI_VENDOR_ID_NVIDIA ∧ device = 0x0863 <;>
      simp [h1, h2]

/-- C1, counterexample: with the display-switch register reading 0 at
suspend time — a value different from 3, the Discrete display-routing code
that switchTo writes — the code records the discrete client, not the
integrated one the claim predicts ("else Integrated"). -/
theorem c1_counterexample_register_zero :
    gmux_suspend 0 = VGA_SWITCHEROO_DIS ∧
    ¬ (gmux_suspend 0 =
        if (0 : Nat) = 3 then VGA_SWITCHEROO_DIS else VGA_SWITCHEROO_IGD) := by
  decide

/-- C1, amended: onSuspend records the integrated client exactly when the
display-switch register reads 2 (the Integrated display-routing code) and
the discrete client for every other value, 3 included; onResume then
performs exactly the switchTo write sequence for that recorded target and
returns success. -/
theorem c1_suspend_resume_amended (displayReg : Nat) :
    gmux_suspend displayReg =
      (if displayReg = 2 then VGA_SWITCHEROO_IGD else VGA_SWITCHEROO_DIS) ∧
    gmux_resume (gmux_suspend displayReg) =
      (if displayReg = 2 then
        ([Event.write8 GMUX_PORT_SWITCH_DDC 1,
          Event.write8 GMUX_PORT_SWITCH_DISPLAY 2,
          Event.write8 GMUX_PORT_SWITCH_EXTERNAL 2], 0)
      else
        ([Event.write8 GMUX_PORT_SWITCH_DDC 2,
          Event.write8 GMUX_PORT_SWITCH_DISPLAY 3,
          Event.write8 GMUX_PORT_SWITCH_EXTERNAL 3], 0)) := by
  by_cases h : displayReg = 2 <;>
    simp [gmux_suspend, gmux_resume, gmux_switchto, gmux_write8, h,
      VGA_SWITCHEROO_IGD, VGA_SWITCHEROO_DIS]

/-- C2: evaluation of the power sequencer on a discrete power-up at the
failing input.  When the completion is never fulfilled (`completed =
false`, the wait times out) the trace contains NO "completion timeout" log,
and when the completion is fulfilled within the bound (`completed = true`)
the trace DOES contain it: the guard `if (wait_for_completion_...)` logs on
a nonzero wait result, which is the completed-in-time case, the inverse of
the claimed behaviour.  The call returns 0 (success) in both cases. -/
theorem c2_timeout_log_inverted :
    (gmux_set_power_state ⟨true, true⟩ false VGA_SWITCHEROO_DIS
        VGA_SWITCHEROO_ON).2 = 0 ∧
    Event.log "completion timeout" ∉
      (gmux_set_power_state ⟨true, true⟩ false VGA_SWITCHEROO_DIS
        VGA_SWITCHEROO_ON).1 ∧
    (gmux_set_power_state ⟨true, true⟩ true VGA_SWITCHEROO_DIS
        VGA_SWITCHEROO_ON).2 = 0 ∧
    Event.log "completion timeout" ∈
      (gmux_set_power_state ⟨true, true⟩ true VGA_SWITCHEROO_DIS
        VGA_SWITCHEROO_ON).1 := by
  decide

/-- C3: projected onto discrete-power-register writes and PWRD firmware
invocations, a discrete power-up is exactly PWRD(0) followed by writes 1
then 3, and a discrete power-down is exactly writes 1 then 0 followed by
PWRD(1); this projection and the returned result (0, success) are the same
for every firmware environment, so a failing firmware call changes
neither. -/
theorem c3_discrete_power_sequencing (fw : FwEnv) (completed : Bool) :
    pwrd_power_events
        (gmux_set_discrete_state fw completed VGA_SWITCHEROO_ON).1 =
      [Event.pwrdCall 0,
       Event.write8 GMUX_PORT_DISCRETE_POWER 1,
       Event.write8 GMUX_PORT_DISCRETE_POWER 3] ∧
    pwrd_power_events
        (gmux_set_discrete_state fw completed VGA_SWITCHEROO_OFF).1 =
      [Event.write8 GMUX_PORT_DISCRETE_POWER 1,
       Event.write8 GMUX_PORT_DISCRETE_POWER 0,
       Event.pwrdCall 1] ∧
    (gmux_set_discrete_state fw completed VGA_SWITCHEROO_ON).2 = 0 ∧
    (gmux_set_discrete_state fw completed VGA_SWITCHEROO_OFF).2 = 0 := by
  rcases fw with ⟨h, e⟩
  cases h <;> cases e <;> cases completed <;> decide

/-- C10: every client id other than the integrated one takes the discrete
paths — switchTo performs the Discrete write sequence and setPower runs
the full discrete power sequencer — and switchTo, switchDdcOnly,
setBrightness and setPower all return 0 (success) unconditionally on every
input. -/
theorem c10_role_default_and_unconditional_success
    (id state brightness : Nat) (fw : FwEnv) (completed : Bool) :
    (id ≠ VGA_SWITCHEROO_IGD →
      gmux_switchto id =
        ([Event.write8 GMUX_PORT_SWITCH_DDC 2,
          Event.write8 GMUX_PORT_SWITCH_DISPLAY 3,
          Event.write8 GMUX_PORT_SWITCH_EXTERNAL 3], 0) ∧
      gmux_set_power_state fw completed id state =
        gmux_set_discrete_state fw completed state) ∧
    (gmux_switchto id).2 = 0 ∧
    (gmux_switchddc id).2 = 0 ∧
    (gmux_update_status brightness).2 = 0 ∧
    (gmux_set_power_state fw completed id state).2 = 0 := by
  refine ⟨fun hid => ⟨?_, ?_⟩, ?_, ?_, rfl, ?_⟩
  · simp [gmux_switchto, hid, gmux_write8]
  · simp [gmux_set_power_state, hid]
  · by_cases hid : id = VGA_SWITCHEROO_IGD <;> simp [gmux_switchto, hid]
  · by_cases hid : id = VGA_SWITCHEROO_IGD <;> simp [gmux_switchddc, hid]
  · by_cases hid : id = VGA_SWITCHEROO_IGD <;>
      simp [gmux_set_power_state, hid, gmux_set_discrete_state_ret]

/-- C10, witness: a client id outside the two-value enumeration (7) takes
the discrete switch sequence and the discrete power sequencer. -/
theorem c10_witness :
    gmux_switchto 7 =
      ([Event.write8 GMUX_PORT_SWITCH_DDC 2,
        Event.write8 GMUX_PORT_SWITCH_DISPLAY 3,
        Event.write8 GMUX_PORT_SWITCH_EXTERNAL 3], 0) ∧
    gmux_set_power_state ⟨true, true⟩ false 7 1 =
      gmux_set_discrete_state ⟨true, true⟩ false 1 :=
  (c10_role_default_and_unconditional_success 7 1 5 ⟨true, true⟩ false).1
    (by decide)

theorem and_power_bit_ne_zero_iff (x : Nat) :
    x &&& GMUX_INTERRUPT_STATUS_POWER ≠ 0 ↔ x.testBit 2 = true := by
  have h4 : GMUX_INTERRUPT_STATUS_POWER = 2 ^ 2 := by decide
  rw [h4, Nat.and_two_pow]
  cases h : x.testBit 2 <;> simp

/-- C4: the interrupt bridge performs the fixed step order — read status,
disable interrupts, log, re-read status, write that re-read value back,
re-read again, log a diagnostic exactly when that final re-read is
non-zero, re-enable interrupts, then conditionally fulfill — and the
completion is fulfilled if and only if the originally read status value has
the power-change bit (bit 2) set, regardless of the other bits and of the
later reads. -/
theorem c4_notify_handler_order_and_fulfill (status s1 s2 : Nat) :
    gmux_notify_handler status s1 s2 =
      [Event.read8 GMUX_PORT_INTERRUPT_STATUS status,
       Event.write8 GMUX_PORT_INTERRUPT_ENABLE GMUX_INTERRUPT_DISABLE,
       Event.log "gpe handler called",
       Event.read8 GMUX_PORT_INTERRUPT_STATUS s1,
       Event.write8 GMUX_PORT_INTERRUPT_STATUS (s1 % 2 ^ 8),
       Event.read8 GMUX_PORT_INTERRUPT_STATUS s2] ++
        (if s2 ≠ 0 then [Event.log "activate status error"] else []) ++
        ([Event.write8 GMUX_PORT_INTERRUPT_ENABLE GMUX_INTERRUPT_ENABLE] ++
          (if status.testBit 2 then [Event.fulfill] else [])) ∧
    (Event.fulfill ∈ gmux_notify_handler status s1 s2 ↔
      status &&& GMUX_INTERRUPT_STATUS_POWER ≠ 0) ∧
    (status &&& GMUX_INTERRUPT_STATUS_POWER ≠ 0 ↔
      status.testBit 2 = true) := by
  have hbit := and_power_bit_ne_zero_iff status
  refine ⟨?_, ?_, hbit⟩
  · by_cases hb : status.testBit 2 <;> by_cases hs : s2 = 0 <;>
      simp [gmux_notify_handler, gmux_interrupt_activate_status,
        gmux_disable_interrupts, gmux_enable_interrupts, gmux_write8,
        GMUX_INTERRUPT_DISABLE, GMUX_INTERRUPT_ENABLE, hbit, hb, hs]
  · by_cases hb : status.testBit 2 <;> by_cases hs : s2 = 0 <;>
      simp [gmux_notify_handler, gmux_interrupt_activate_status,
        gmux_disable_interrupts, gmux_enable_interrupts, gmux_write8,
        hbit, hb, hs]

theorem and_brightness_mask_of_lt (x : Nat) (h : x < 2 ^ 24) :
    x &&& GMUX_BRIGHTNESS_MASK = x := by
  have hm : GMUX_BRIGHTNESS_MASK = 2 ^ 24 - 1 := by decide
  rw [hm, Nat.and_pow_two_sub_one_eq_mod, Nat.mod_eq_of_lt h]

/-- C7: for every brightness value within the 24-bit mask, the update
writes exactly the four bytes (v mod 256, v div 256 mod 256, v div 65536
mod 256, 0) to the four consecutive offsets starting at the brightness
port, and on any register file in which reads reflect prior writes, a
get-brightness after replaying those writes returns the value itself. -/
theorem c7_brightness_roundtrip (v : Nat) (hv : v ≤ GMUX_BRIGHTNESS_MASK)
    (r : Regs) :
    (gmux_update_status v).1 =
      [Event.write8 GMUX_PORT_BRIGHTNESS (v % 2 ^ 8),
       Event.write8 (GMUX_PORT_BRIGHTNESS + 1) (v / 2 ^ 8 % 2 ^ 8),
       Event.write8 (GMUX_PORT_BRIGHTNESS + 2) (v / 2 ^ 16 % 2 ^ 8),
       Event.write8 (GMUX_PORT_BRIGHTNESS + 3) 0] ∧
    gmux_get_brightness (applyEvents (gmux_update_status v).1 r) = v := by
  have hlt : v < 2 ^ 24 := by
    have hm : GMUX_BRIGHTNESS_MASK = 2 ^ 24 - 1 := by decide
    omega
  constructor
  · simp [gmux_update_status, gmux_write8]
  · have hread : gmux_read32 (applyEvents (gmux_update_status v).1 r)
        GMUX_PORT_BRIGHTNESS =
        v % 2 ^ 8 + 2 ^ 8 * (v / 2 ^ 8 % 2 ^ 8) +
          2 ^ 16 * (v / 2 ^ 16 % 2 ^ 8) + 2 ^ 24 * 0 := by
      simp [gmux_update_status, gmux_write8, applyEvents, writeReg,
        gmux_read32, GMUX_PORT_BRIGHTNESS]
    have hsum : v % 2 ^ 8 + 2 ^ 8 * (v / 2 ^ 8 % 2 ^ 8) +
        2 ^ 16 * (v / 2 ^ 16 % 2 ^ 8) + 2 ^ 24 * 0 = v := by
      omega
    unfold gmux_get_brightness
    rw [hread, hsum, and_brightness_mask_of_lt v hlt]

/-- C7, witness: the roundtrip at the concrete brightness value 0x123456
on the all-zero register file. -/
theorem c7_brightness_roundtrip_witness :
    0x123456 ≤ GMUX_BRIGHTNESS_MASK ∧
    gmux_get_brightness
      (applyEvents (gmux_update_status 0x123456).1 (fun _ => 0)) =
      0x123456 :=
  ⟨by decide,
    (c7_brightness_roundtrip 0x123456 (by decide) (fun _ => 0)).2⟩
